import Mathlib

/-!
Shallow embedding of the prediction-scoring and leaderboard engine of the
bot-pronosticos repository (src/app/utils/scoring.py, src/app/models.py,
src/app/routers/webhook.py), together with theorems checking the
natural-language specification against it.

Conventions of the embedding:
* machine integers are `Int` (goal counts, points) and `Nat` (ids);
* timestamps (`datetime`) are `Int`, measured in days, so that
  `timedelta(days=7)` is the constant `7`;
* `GameConfig` rows (key/value, key primary) are a `List (String × Int)`;
  the code applies `int(...)` to every configuration value it reads, so
  values are modelled already parsed;
* database tables are lists of rows; SQL `SELECT ... WHERE id = x` with
  `scalar_one_or_none` is `List.find?` (ids are primary keys);
* a Python function that ends without `return expr` returns `None`,
  modelled as `Option.none`.
-/

/-- `PredictionType` enumeration from src/app/models.py. -/
inductive PredictionType where
  | PRIME
  | REPECHAJE
  | FAIL
  | PENDING
deriving DecidableEq

/-- `MatchStatus` enumeration from src/app/models.py. -/
inductive MatchStatus where
  | PENDING
  | FINISHED
deriving DecidableEq

/-- `config_dict.get(key, default)` on the dict built by `get_config_dict`
(src/app/routers/webhook.py, lines 28-31), values already `int(...)`-parsed. -/
def configGet (cfg : List (String × Int)) (key : String) (default : Int) : Int :=
  match cfg.find? (fun kv => kv.1 == key) with
  | some kv => kv.2
  | none => default

/-- `calculate_score` from src/app/utils/scoring.py, lines 3-32. -/
def calculate_score (pred_home pred_away real_home real_away : Int)
    (config_dict : List (String × Int)) : Int × PredictionType :=
  let points_prime := configGet config_dict "points_prime" 5
  let points_repechaje := configGet config_dict "points_repechaje" 3
  if pred_home = real_home ∧ pred_away = real_away then
    (points_prime, PredictionType.PRIME)
  else if real_home > real_away then
    if pred_home > pred_away then (points_repechaje, PredictionType.REPECHAJE)
    else (0, PredictionType.FAIL)
  else if real_away > real_home then
    if pred_away > pred_home then (points_repechaje, PredictionType.REPECHAJE)
    else (0, PredictionType.FAIL)
  else
    if pred_home = pred_away then (points_repechaje, PredictionType.REPECHAJE)
    else (0, PredictionType.FAIL)

/-- Outcome direction of a scoreline, as the spec words it:
`HomeWin` if home>away, `AwayWin` if away>home, else `Draw`. -/
inductive Direction where
  | HomeWin
  | AwayWin
  | Draw
deriving DecidableEq

def direction (home away : Int) : Direction :=
  if home > away then Direction.HomeWin
  else if away > home then Direction.AwayWin
  else Direction.Draw

/-- The scoring evaluator written exactly as the spec describes it
(spec §4.1): exact check first, then direction comparison, else miss;
to be compared with `calculate_score` (refinement). -/
def evaluate_spec (pred_home pred_away real_home real_away : Int)
    (config_dict : List (String × Int)) : Int × PredictionType :=
  let exact_points := configGet config_dict "points_prime" 5
  let direction_points := configGet config_dict "points_repechaje" 3
  if pred_home = real_home ∧ pred_away = real_away then
    (exact_points, PredictionType.PRIME)
  else if direction pred_home pred_away = direction real_home real_away then
    (direction_points, PredictionType.REPECHAJE)
  else
    (0, PredictionType.FAIL)

/-- `User` table row from src/app/models.py (avatar dropped: never read by
the engine). -/
structure User where
  id : Nat
  name : String
  is_admin : Bool
deriving DecidableEq

/-- `Match` table row from src/app/models.py. -/
structure Match where
  id : Nat
  home_team : String
  away_team : String
  match_date : Int
  goals_home : Option Int
  goals_away : Option Int
  status : MatchStatus
deriving DecidableEq

/-- `Prediction` table row from src/app/models.py; primary key is the pair
(user_id, match_id). -/
structure Prediction where
  user_id : Nat
  match_id : Nat
  pred_home : Int
  pred_away : Int
  points : Int
  type : PredictionType
deriving DecidableEq

/-- `ScoreAdjustment` table row from src/app/models.py. -/
structure ScoreAdjustment where
  id : Nat
  user_id : Nat
  points : Int
  reason : String
  created_at : Int
deriving DecidableEq

/-- The persistent store: one list per table, plus the `game_config`
key/value table (values `int(...)`-parsed). -/
structure DB where
  users : List User
  «matches» : List Match
  predictions : List Prediction
  adjustments : List ScoreAdjustment
  config : List (String × Int)
deriving DecidableEq

/-- `select(Match).where(Match.id == match_id)` + `scalar_one_or_none`:
`Match.id` is the primary key, so the first hit is the row. -/
def findMatch (db : DB) (mid : Nat) : Option Match :=
  db.«matches».find? (fun m => m.id == mid)

/-- The body of the `for pred in predictions` loop of
`recalculate_all_scores` (src/app/routers/webhook.py, lines 46-54): a
prediction of the recalculated match gets the evaluator's points and type,
any other row is untouched. -/
def rescore (m : Match) (cfg : List (String × Int)) (mid : Nat)
    (p : Prediction) : Prediction :=
  if p.match_id == mid then
    let r := calculate_score p.pred_home p.pred_away
      (m.goals_home.getD 0) (m.goals_away.getD 0) cfg
    { p with points := r.1, type := r.2 }
  else p

/-- `recalculate_all_scores` from src/app/routers/webhook.py, lines 33-56.
The Python function has no `return expr` on any path, so its value is
always `None` (second component `none`). The loop mutates exactly the
prediction rows whose `match_id` matches, using the match row and the
config dict loaded once before the loop. -/
def recalculate_all_scores (db : DB) (match_id : Nat) : DB × Option Nat :=
  match findMatch db match_id with
  | none => (db, none)
  | some match_obj =>
    if match_obj.status ≠ MatchStatus.FINISHED then (db, none)
    else
      let config := db.config
      ({ db with predictions :=
          db.predictions.map (rescore match_obj config match_id) }, none)

/-- `matchFinalized db mid` : the match row exists and its status is
`FINISHED` (the guard of `recalculate_all_scores` passes). -/
def matchFinalized (db : DB) (mid : Nat) : Bool :=
  match findMatch db mid with
  | some m => m.status == MatchStatus.FINISHED
  | none => false

/-- Every prediction row of match `mid` holds exactly the evaluator's
output for its guess, the match's recorded final score, and the
configuration `c`. -/
def predsScoredWith (db : DB) (mid : Nat) (c : List (String × Int)) : Bool :=
  db.predictions.all fun p =>
    if p.match_id == mid then
      match findMatch db mid with
      | some m => decide ((p.points, p.type) =
          calculate_score p.pred_home p.pred_away
            (m.goals_home.getD 0) (m.goals_away.getD 0) c)
      | none => true
    else true

/-- The predictions of match `mid` are recalculated under the store's
current configuration. -/
def predsRecalculated (db : DB) (mid : Nat) : Bool :=
  predsScoredWith db mid db.config

/-- The state change of the `!resultado` branch of the webhook
(src/app/routers/webhook.py, lines 271-282) up to its first
`await db.commit()`: look the match up; if absent reply and change nothing
(`none`); otherwise set both goals and the `FINISHED` status on that row.
The row is the unique one with primary key `mid`; the map rewrites exactly
the rows carrying that id. `finalizeRow` is the per-row effect of
`m_obj.goals_home = gh; m_obj.goals_away = ga; m_obj.status = FINISHED`. -/
def finalizeRow (mid : Nat) (gh ga : Int) (m : Match) : Match :=
  if m.id == mid then
    { m with goals_home := some gh, goals_away := some ga,
             status := MatchStatus.FINISHED }
  else m

def resultado_finalize (db : DB) (mid : Nat) (gh ga : Int) : Option DB :=
  match findMatch db mid with
  | none => none
  | some _ =>
    some { db with «matches» := db.«matches».map (finalizeRow mid gh ga) }

/-- The committed (hence observable, under read-committed isolation) store
states produced by the `!resultado` branch: the commit at line 280
(finalized match, predictions untouched), then the commit inside
`recalculate_all_scores` (line 56). -/
def resultado_commit_states (db : DB) (mid : Nat) (gh ga : Int) : List DB :=
  match resultado_finalize db mid gh ga with
  | none => []
  | some db1 => [db1, (recalculate_all_scores db1 mid).1]

/-- Replies of the `!pronostico` branch (src/app/routers/webhook.py,
lines 150-177) that can follow a successful parse. -/
inductive PronosticoReply where
  | matchNotExists
  | matchClosed
  | saved
deriving DecidableEq

/-- The `!pronostico` branch of the webhook (src/app/routers/webhook.py,
lines 150-177), after parsing: reject if the match row is absent; reject
with "Partido cerrado" if `match_date < now`; otherwise upsert the
(user, match) prediction row — insert with the column defaults
`points = 0`, `type = PENDING`, or overwrite the guess of the existing
row (primary key (user_id, match_id), so the map touches that row only). -/
def submit_pronostico (db : DB) (uid mid : Nat) (home_goals away_goals : Int)
    (now : Int) : DB × PronosticoReply :=
  match findMatch db mid with
  | none => (db, PronosticoReply.matchNotExists)
  | some match_obj =>
    if match_obj.match_date < now then (db, PronosticoReply.matchClosed)
    else
      match db.predictions.find? (fun p => p.user_id == uid && p.match_id == mid) with
      | none =>
        ({ db with predictions := db.predictions ++
            [{ user_id := uid, match_id := mid, pred_home := home_goals,
               pred_away := away_goals, points := 0,
               type := PredictionType.PENDING }] }, PronosticoReply.saved)
      | some _ =>
        ({ db with predictions := db.predictions.map fun p =>
            if p.user_id == uid && p.match_id == mid then
              { p with pred_home := home_goals, pred_away := away_goals }
            else p }, PronosticoReply.saved)

/-- The `date_filter` computed at the top of the `/leaderboard-image`
endpoint (src/app/routers/webhook.py, lines 64-70): `None` unless the
period is `semanal` (7 days) or `mensual` (30 days). -/
def date_filter (period : String) (now : Int) : Option Int :=
  if period == "semanal" then some (now - 7)
  else if period == "mensual" then some (now - 30)
  else none

/-- Row filter of the predictions query (lines 74-79): inner join on the
prediction's match, and `Match.match_date >= date_filter` when a filter is
set. -/
def predIncluded (db : DB) (flt : Option Int) (p : Prediction) : Bool :=
  match findMatch db p.match_id with
  | none => false
  | some m =>
    match flt with
    | none => true
    | some d => d ≤ m.match_date

/-- Row filter of the adjustments query (lines 85-87):
`ScoreAdjustment.created_at >= date_filter` when a filter is set. -/
def adjIncluded (flt : Option Int) (a : ScoreAdjustment) : Bool :=
  match flt with
  | none => true
  | some d => d ≤ a.created_at

/-- `func.sum(Prediction.points)` of user `uid`'s included prediction rows
(the grouped-sum query of lines 74-82, read per group). -/
def predTotal (db : DB) (flt : Option Int) (uid : Nat) : Int :=
  ((db.predictions.filter fun p =>
      p.user_id == uid && predIncluded db flt p).map Prediction.points).sum

/-- `func.sum(ScoreAdjustment.points)` of user `uid`'s included adjustment
rows (the grouped-sum query of lines 85-91, read per group). -/
def adjTotal (db : DB) (flt : Option Int) (uid : Nat) : Int :=
  ((db.adjustments.filter fun a =>
      a.user_id == uid && adjIncluded flt a).map ScoreAdjustment.points).sum

/-- `uid` owns a key of `points_map` (lines 82, 91): at least one included
prediction row or at least one included adjustment row (SQL GROUP BY
produces a group exactly when the user has a qualifying row). -/
def hasActivity (db : DB) (flt : Option Int) (uid : Nat) : Bool :=
  (db.predictions.any fun p => p.user_id == uid && predIncluded db flt p) ||
  (db.adjustments.any fun a => a.user_id == uid && adjIncluded flt a)

/-- The unsorted `leaderboard` list of lines 96-102: the user rows whose id
is a key of `points_map`, in table order, each with
`points_map.get(u.id, 0)`. The user row is kept alongside its total (the
code keeps `u.name`). -/
def leaderboard_rows (db : DB) (flt : Option Int) : List (User × Int) :=
  (db.users.filter fun u => hasActivity db flt u.id).map fun u =>
    (u, predTotal db flt u.id + adjTotal db flt u.id)

/-- The comparison of `leaderboard.sort(key=total_points, reverse=True)`:
descending by total. -/
def lbRel (x y : User × Int) : Prop := y.2 ≤ x.2

instance : DecidableRel lbRel :=
  fun x y => inferInstanceAs (Decidable (y.2 ≤ x.2))

instance : IsTotal (User × Int) lbRel :=
  ⟨fun x y => le_total y.2 x.2⟩

instance : IsTrans (User × Int) lbRel :=
  ⟨fun _ _ _ h1 h2 => le_trans h2 h1⟩

/-- `leaderboard` after the line-103 sort. Python's `list.sort` is a
stable descending sort, modelled by a stable sort under `lbRel`. -/
def leaderboard_sorted (db : DB) (flt : Option Int) : List (User × Int) :=
  (leaderboard_rows db flt).insertionSort lbRel

/-- The ranked sequence computed by the `/leaderboard-image` endpoint
(src/app/routers/webhook.py, lines 59-103) before rendering. -/
def get_leaderboard_image_endpoint (db : DB) (period : String) (now : Int) :
    List (User × Int) :=
  leaderboard_sorted db (date_filter period now)

/-- The lines 100-102 loop with the users query's result made explicit:
`select(User).where(User.id.in_(user_ids))` (line 97) carries no
`ORDER BY`, so the engine may deliver the qualifying user rows in any
order; `users` is the delivered list and each user gets
`points_map.get(u.id, 0)`, i.e. their included prediction and adjustment
sums. -/
def leaderboard_rows_of (users : List User) (db : DB) (flt : Option Int) :
    List (User × Int) :=
  users.map fun u => (u, predTotal db flt u.id + adjTotal db flt u.id)

/-- The line-103 sort applied to an explicitly delivered row order:
the output the endpoint produces when the unordered users query returns
`users`. `leaderboard_sorted db flt` is the instance where the engine
returns the qualifying rows in table order. -/
def leaderboard_sorted_of (users : List User) (db : DB) (flt : Option Int) :
    List (User × Int) :=
  (leaderboard_rows_of users db flt).insertionSort lbRel

/-! Concrete store states used as witnesses and counterexamples. -/

def exUser : User := ⟨7, "Ana", false⟩

def exMatchOpen : Match := ⟨1, "Alpha", "Beta", 100, none, none, MatchStatus.PENDING⟩

def exMatchFinished : Match :=
  ⟨1, "Alpha", "Beta", 100, some 2, some 1, MatchStatus.FINISHED⟩

def exPred : Prediction := ⟨7, 1, 2, 1, 0, PredictionType.PENDING⟩

/-- An open match with one stored (still unscored) prediction. -/
def dbAtomic : DB := ⟨[exUser], [exMatchOpen], [exPred], [], []⟩

/-- A finalized match (2-1) with one stored prediction. -/
def dbFinished : DB := ⟨[exUser], [exMatchFinished], [exPred], [], []⟩

/-- A finalized match whose scheduled time (100) has not yet passed, and no
stored prediction. -/
def dbSubmitFin : DB := ⟨[exUser], [exMatchFinished], [], [], []⟩

/-- One user with three scored predictions (5, 0, 3 points) and one -2
adjustment: the spec's totals example. -/
def dbTotals : DB :=
  ⟨[exUser],
   [exMatchFinished,
    ⟨2, "Alpha", "Beta", 100, some 2, some 1, MatchStatus.FINISHED⟩,
    ⟨3, "Alpha", "Beta", 100, some 2, some 1, MatchStatus.FINISHED⟩],
   [⟨7, 1, 2, 1, 5, PredictionType.PRIME⟩,
    ⟨7, 2, 0, 3, 0, PredictionType.FAIL⟩,
    ⟨7, 3, 1, 0, 3, PredictionType.REPECHAJE⟩],
   [⟨1, 7, -2, "Admin", 0⟩], []⟩

def exU1 : User := ⟨1, "Uno", false⟩

def exU2 : User := ⟨2, "Dos", false⟩

def exU3 : User := ⟨3, "Tres", false⟩

/-- Three users with totals 10, 10 and 7: the spec's tie example. -/
def dbTies : DB :=
  ⟨[exU1, exU2, exU3], [], [],
   [⟨1, 1, 10, "Admin", 0⟩, ⟨2, 2, 10, "Admin", 0⟩, ⟨3, 3, 7, "Admin", 0⟩],
   []⟩

/-- An adjustment created 40 days before `now = 40`. -/
def exAdjOld : ScoreAdjustment := ⟨1, 7, 5, "Admin", 0⟩

/-- C1: for all non-negative goal counts and every configuration mapping,
`calculate_score` returns `(exact_points, Exact)` exactly when the prediction
matches the final score (this check first), otherwise
`(partial_points, PartialDirection)` exactly when the predicted outcome
direction equals the final one, otherwise `(0, Miss)`; the two point values
default to 5 and 3 when their configuration key is absent. -/
theorem claim_C1_calculate_score_matches_spec
    (ph pa fh fa : Int) (cfg : List (String × Int))
    (hph : 0 ≤ ph) (hpa : 0 ≤ pa) (hfh : 0 ≤ fh) (hfa : 0 ≤ fa) :
    calculate_score ph pa fh fa cfg = evaluate_spec ph pa fh fa cfg := by
  simp only [calculate_score, evaluate_spec, direction]
  split_ifs <;> simp_all <;> omega

/-- C1 witness: the theorem applied at a concrete input (predicted 3-1,
final 2-0, empty configuration). -/
theorem claim_C1_witness :
    calculate_score 3 1 2 0 [] = evaluate_spec 3 1 2 0 [] :=
  claim_C1_calculate_score_matches_spec 3 1 2 0 []
    (by decide) (by decide) (by decide) (by decide)

/-! Helper lemmas about the recalculation pass. -/

theorem matchFinalized_eq_true (db : DB) (mid : Nat) :
    matchFinalized db mid = true ↔
      ∃ m, findMatch db mid = some m ∧ m.status = MatchStatus.FINISHED := by
  unfold matchFinalized
  cases hf : findMatch db mid <;> simp

theorem rescore_idem (m : Match) (cfg : List (String × Int)) (mid : Nat)
    (p : Prediction) :
    rescore m cfg mid (rescore m cfg mid p) = rescore m cfg mid p := by
  obtain ⟨uid, pmid, ph, pa, pts, ty⟩ := p
  by_cases h : pmid == mid <;> simp_all [rescore]

theorem recalc_eq_of_finished (db : DB) (mid : Nat) (m : Match)
    (hf : findMatch db mid = some m) (hs : m.status = MatchStatus.FINISHED) :
    recalculate_all_scores db mid =
      ({ db with predictions :=
          db.predictions.map (rescore m db.config mid) }, none) := by
  unfold recalculate_all_scores
  rw [hf]
  simp [hs]

theorem recalc_eq_of_not_finalized (db : DB) (mid : Nat)
    (h : matchFinalized db mid = false) :
    recalculate_all_scores db mid = (db, none) := by
  unfold recalculate_all_scores
  unfold matchFinalized at h
  cases hf : findMatch db mid with
  | none => rfl
  | some m =>
    rw [hf] at h
    simp only [beq_eq_false_iff_ne, ne_eq] at h
    simp [h]

theorem recalc_idem (db : DB) (mid : Nat) :
    recalculate_all_scores (recalculate_all_scores db mid).1 mid =
      recalculate_all_scores db mid := by
  cases hfin : matchFinalized db mid with
  | false =>
    rw [recalc_eq_of_not_finalized db mid hfin]
    exact recalc_eq_of_not_finalized db mid hfin
  | true =>
    obtain ⟨m, hf, hs⟩ := (matchFinalized_eq_true db mid).1 hfin
    rw [recalc_eq_of_finished db mid m hf hs]
    have hf' : findMatch
        { db with predictions := db.predictions.map (rescore m db.config mid) }
        mid = some m := hf
    rw [recalc_eq_of_finished _ mid m hf' hs]
    have hmap :
        (db.predictions.map (rescore m db.config mid)).map
            (rescore m db.config mid) =
          db.predictions.map (rescore m db.config mid) := by
      rw [List.map_map]
      exact List.map_congr_left fun p _ => rescore_idem m db.config mid p
    simp [hmap]

theorem recalc_scored (db : DB) (mid : Nat) (m : Match)
    (hf : findMatch db mid = some m) (hs : m.status = MatchStatus.FINISHED) :
    predsScoredWith (recalculate_all_scores db mid).1 mid db.config = true := by
  rw [recalc_eq_of_finished db mid m hf hs]
  unfold predsScoredWith
  rw [List.all_eq_true]
  intro x hx
  obtain ⟨q, hq, rfl⟩ := List.mem_map.1 hx
  have hf' : findMatch
      { db with predictions := db.predictions.map (rescore m db.config mid) }
      mid = some m := hf
  by_cases h : q.match_id == mid
  · cases q
    simp_all [rescore]
  · simp [rescore, h]

theorem recalc_config (db : DB) (mid : Nat) :
    (recalculate_all_scores db mid).1.config = db.config := by
  unfold recalculate_all_scores
  cases findMatch db mid with
  | none => rfl
  | some m =>
    dsimp only
    split <;> rfl

theorem find?_map_finalizeRow (ms : List Match) (mid : Nat) (gh ga : Int)
    (m : Match) (hm : ms.find? (fun x => x.id == mid) = some m) :
    (ms.map (finalizeRow mid gh ga)).find? (fun x => x.id == mid)
      = some (finalizeRow mid gh ga m) := by
  rw [List.find?_map]
  have hcomp : ((fun x : Match => x.id == mid) ∘ finalizeRow mid gh ga)
      = fun x : Match => x.id == mid := by
    funext x
    show ((finalizeRow mid gh ga x).id == mid) = (x.id == mid)
    unfold finalizeRow
    split <;> rfl
  rw [hcomp, hm]
  rfl

theorem findMatch_id (db : DB) (mid : Nat) (m : Match)
    (hm : findMatch db mid = some m) : (m.id == mid) = true := by
  unfold findMatch at hm
  exact List.find?_some (p := fun x : Match => x.id == mid) hm

theorem finalizeRow_status (mid : Nat) (gh ga : Int) (m : Match)
    (hid : (m.id == mid) = true) :
    (finalizeRow mid gh ga m).status = MatchStatus.FINISHED := by
  unfold finalizeRow
  simp [hid]

/-- C2: REFUTED. The `!resultado` branch commits the finalized match
(line 280) before `recalculate_all_scores` runs and commits separately
(line 56): the first committed state is observable with the match
`Finalized` while its prediction still carries its stale points, and no
`RecalculationFailed` is ever surfaced. -/
theorem claim_C2_counterexample :
    ∃ s ∈ resultado_commit_states dbAtomic 1 2 1,
      matchFinalized s 1 = true ∧ predsRecalculated s 1 = false := by decide

/-- C2 (amended): finalizing a recorded result produces exactly two
committed states: first the match is `Finalized` with every prediction
still untouched, then — in a second, separate transaction — every
prediction of the match is rescored by the evaluator; the all-or-nothing
unit of the original claim does not exist, and no `RecalculationFailed`
outcome exists in the code. -/
theorem claim_C2_two_commits (db : DB) (mid : Nat) (gh ga : Int) (m : Match)
    (hm : findMatch db mid = some m) :
    ∃ db1, resultado_finalize db mid gh ga = some db1 ∧
      resultado_commit_states db mid gh ga =
        [db1, (recalculate_all_scores db1 mid).1] ∧
      db1.predictions = db.predictions ∧
      matchFinalized db1 mid = true ∧
      predsRecalculated (recalculate_all_scores db1 mid).1 mid = true := by
  refine ⟨{ db with «matches» := db.«matches».map (finalizeRow mid gh ga) },
    ?_, ?_, rfl, ?_, ?_⟩
  · unfold resultado_finalize
    rw [hm]
  · unfold resultado_commit_states resultado_finalize
    rw [hm]
  · have hf1 : findMatch
        { db with «matches» := db.«matches».map (finalizeRow mid gh ga) } mid
        = some (finalizeRow mid gh ga m) :=
      find?_map_finalizeRow db.«matches» mid gh ga m hm
    have hid : (m.id == mid) = true := findMatch_id db mid m hm
    exact (matchFinalized_eq_true _ mid).2
      ⟨finalizeRow mid gh ga m, hf1, finalizeRow_status mid gh ga m hid⟩
  · have hf1 : findMatch
        { db with «matches» := db.«matches».map (finalizeRow mid gh ga) } mid
        = some (finalizeRow mid gh ga m) :=
      find?_map_finalizeRow db.«matches» mid gh ga m hm
    have hid : (m.id == mid) = true := findMatch_id db mid m hm
    unfold predsRecalculated
    rw [recalc_config]
    exact recalc_scored _ mid (finalizeRow mid gh ga m) hf1
      (finalizeRow_status mid gh ga m hid)

/-- C2 witness: the amended theorem applied to the concrete store
`dbAtomic` (open match 1, one stored prediction), finalizing 2-1. -/
theorem claim_C2_witness :
    ∃ db1, resultado_finalize dbAtomic 1 2 1 = some db1 ∧
      resultado_commit_states dbAtomic 1 2 1 =
        [db1, (recalculate_all_scores db1 1).1] ∧
      db1.predictions = dbAtomic.predictions ∧
      matchFinalized db1 1 = true ∧
      predsRecalculated (recalculate_all_scores db1 1).1 1 = true :=
  claim_C2_two_commits dbAtomic 1 2 1 exMatchOpen (by decide)

/-- C3: REFUTED in its returned-value part. `recalculate_all_scores`
has no `return expr` on any path, so it returns `None` — never the
claimed count, not even `0` for an absent match. -/
theorem claim_C3_counterexample :
    ¬ (recalculate_all_scores (DB.mk [] [] [] [] []) 1).2 = some 0 := by decide

/-- C3 (amended): `recalculate_all_scores` always returns `None` (no
count), and when the referenced match is absent or not `Finalized` it is
a no-op: the whole store is left unchanged. -/
theorem claim_C3_none_and_noop (db : DB) (mid : Nat) :
    (recalculate_all_scores db mid).2 = none ∧
    (matchFinalized db mid = false → (recalculate_all_scores db mid).1 = db) := by
  constructor
  · unfold recalculate_all_scores
    cases findMatch db mid with
    | none => rfl
    | some m =>
      dsimp only
      split <;> rfl
  · intro h
    rw [recalc_eq_of_not_finalized db mid h]

/-- C3 witness: the amended theorem applied to the empty store and to the
open-match store `dbAtomic`. -/
theorem claim_C3_witness :
    (recalculate_all_scores (DB.mk [] [] [] [] []) 1).2 = none ∧
    (recalculate_all_scores dbAtomic 1).1 = dbAtomic :=
  ⟨(claim_C3_none_and_noop (DB.mk [] [] [] [] []) 1).1,
   (claim_C3_none_and_noop dbAtomic 1).2 (by decide)⟩

/-- C4: the recalculation pass is idempotent: with the match result and
configuration unchanged in between, a second run of
`recalculate_all_scores` on a `Finalized` match leaves the whole store
(every Prediction row included) exactly as the first run did. -/
theorem claim_C4_recalc_idempotent (db : DB) (mid : Nat)
    (h : matchFinalized db mid = true) :
    recalculate_all_scores (recalculate_all_scores db mid).1 mid =
      recalculate_all_scores db mid :=
  recalc_idem db mid

/-- C4 witness: idempotence at the concrete finalized store `dbFinished`. -/
theorem claim_C4_witness :
    recalculate_all_scores (recalculate_all_scores dbFinished 1).1 1 =
      recalculate_all_scores dbFinished 1 :=
  claim_C4_recalc_idempotent dbFinished 1 (by decide)

/-- C5: after a recalculation pass over a `Finalized` match there is a
single configuration value `c` — the one loaded once per pass — under
which every prediction of that match holds exactly the evaluator's output
for its guess and the match's final score. -/
theorem claim_C5_single_config (db : DB) (mid : Nat)
    (h : matchFinalized db mid = true) :
    ∃ c, predsScoredWith (recalculate_all_scores db mid).1 mid c = true := by
  obtain ⟨m, hf, hs⟩ := (matchFinalized_eq_true db mid).1 h
  exact ⟨db.config, recalc_scored db mid m hf hs⟩

/-- C5 witness: the single-configuration property at the concrete
finalized store `dbFinished`. -/
theorem claim_C5_witness :
    ∃ c, predsScoredWith (recalculate_all_scores dbFinished 1).1 1 c = true :=
  claim_C5_single_config dbFinished 1 (by decide)

/-- C6: REFUTED. The `!pronostico` branch never checks the match status:
on a `Finalized` match whose scheduled time (100) has not yet passed
(`now = 50`), the submission is accepted and a Prediction row is created. -/
theorem claim_C6_counterexample :
    matchFinalized dbSubmitFin 1 = true ∧
    (submit_pronostico dbSubmitFin 7 1 2 1 50).2 = PronosticoReply.saved ∧
    (submit_pronostico dbSubmitFin 7 1 2 1 50).1.predictions ≠
      dbSubmitFin.predictions := by decide

/-- C6 (amended): a submission on an existing match is rejected — with the
store unchanged — exactly when the match's scheduled time has passed
(`match_date < now`); otherwise it is accepted, whatever the match's
lifecycle state. -/
theorem claim_C6_date_gate (db : DB) (uid mid : Nat)
    (home_goals away_goals now : Int) (m : Match)
    (hm : findMatch db mid = some m) :
    (m.match_date < now →
      submit_pronostico db uid mid home_goals away_goals now =
        (db, PronosticoReply.matchClosed)) ∧
    (¬ m.match_date < now →
      (submit_pronostico db uid mid home_goals away_goals now).2 =
        PronosticoReply.saved) := by
  constructor
  · intro h
    simp only [submit_pronostico, hm]
    rw [if_pos h]
  · intro h
    simp only [submit_pronostico, hm]
    rw [if_neg h]
    cases db.predictions.find? fun p => p.user_id == uid && p.match_id == mid <;>
      rfl

/-- C6 witness: the amended theorem at the concrete store `dbSubmitFin`
(match scheduled at 100): rejected at `now = 200`, accepted at `now = 50`. -/
theorem claim_C6_witness :
    submit_pronostico dbSubmitFin 7 1 2 1 200 =
      (dbSubmitFin, PronosticoReply.matchClosed) ∧
    (submit_pronostico dbSubmitFin 7 1 2 1 50).2 = PronosticoReply.saved :=
  ⟨(claim_C6_date_gate dbSubmitFin 7 1 2 1 200 exMatchFinished (by decide)).1
      (by decide),
   (claim_C6_date_gate dbSubmitFin 7 1 2 1 50 exMatchFinished (by decide)).2
      (by decide)⟩

/-- C7: for every time-bounded window — `semanal` sets the cutoff
`now - 7`, `mensual` sets `now - 30`, and for any cutoff `d` — a
prediction is aggregated iff its match's scheduled time is on or after
the cutoff and an adjustment iff its creation time is on or after the
cutoff; under `total` (AllTime, no filter) both are always aggregated. -/
theorem claim_C7_window_inclusion (db : DB) (now : Int) (p : Prediction)
    (m : Match) (a : ScoreAdjustment) (hm : findMatch db p.match_id = some m) :
    date_filter "semanal" now = some (now - 7) ∧
    date_filter "mensual" now = some (now - 30) ∧
    (∀ d : Int, predIncluded db (some d) p = true ↔ d ≤ m.match_date) ∧
    (∀ d : Int, adjIncluded (some d) a = true ↔ d ≤ a.created_at) ∧
    predIncluded db (date_filter "total" now) p = true ∧
    adjIncluded (date_filter "total" now) a = true := by
  have htot : date_filter "total" now = none := by rfl
  refine ⟨by rfl, by rfl, ?_, ?_, ?_, ?_⟩
  · intro d
    unfold predIncluded
    rw [hm]
    simp
  · intro d
    unfold adjIncluded
    simp
  · unfold predIncluded
    rw [hm, htot]
  · unfold adjIncluded
    rw [htot]

/-- C7 witness: with `now = 40`, the adjustment `exAdjOld` created 40 days
ago fails both the 7-day and the 30-day bound but passes AllTime; the
stored prediction of `dbFinished` (match scheduled at 100) is included
under both bounded windows and under AllTime. -/
theorem claim_C7_witness :
    (predIncluded dbFinished (date_filter "semanal" 40) exPred = true ↔
      40 - 7 ≤ exMatchFinished.match_date) ∧
    (predIncluded dbFinished (date_filter "mensual" 40) exPred = true ↔
      40 - 30 ≤ exMatchFinished.match_date) ∧
    (adjIncluded (date_filter "semanal" 40) exAdjOld = true ↔
      40 - 7 ≤ exAdjOld.created_at) ∧
    (adjIncluded (date_filter "mensual" 40) exAdjOld = true ↔
      40 - 30 ≤ exAdjOld.created_at) ∧
    adjIncluded (date_filter "semanal" 40) exAdjOld = false ∧
    adjIncluded (date_filter "mensual" 40) exAdjOld = false ∧
    predIncluded dbFinished (date_filter "total" 40) exPred = true ∧
    adjIncluded (date_filter "total" 40) exAdjOld = true := by
  have h := claim_C7_window_inclusion dbFinished 40 exPred exMatchFinished
    exAdjOld (by decide)
  refine ⟨?_, ?_, ?_, ?_, by decide, by decide, h.2.2.2.2.1, h.2.2.2.2.2⟩
  · rw [h.1]
    exact h.2.2.1 (40 - 7)
  · rw [h.2.1]
    exact h.2.2.1 (40 - 30)
  · rw [h.1]
    exact h.2.2.2.1 (40 - 7)
  · rw [h.2.1]
    exact h.2.2.2.1 (40 - 30)

/-- C8: for every window, a user present in the users table appears on the
leaderboard — with total equal to the sum of their included prediction
points plus the sum of their included adjustment points — exactly when
they have at least one qualifying prediction or adjustment (a zero total
does not exclude them); with no qualifying activity they are omitted. -/
theorem claim_C8_totals (db : DB) (flt : Option Int) (u : User)
    (hu : u ∈ db.users) :
    (hasActivity db flt u.id = true →
      (u, predTotal db flt u.id + adjTotal db flt u.id) ∈
        leaderboard_sorted db flt) ∧
    (hasActivity db flt u.id = false →
      ∀ t : Int, (u, t) ∉ leaderboard_sorted db flt) := by
  constructor
  · intro h
    unfold leaderboard_sorted
    rw [List.mem_insertionSort]
    unfold leaderboard_rows
    exact List.mem_map.2 ⟨u, List.mem_filter.2 ⟨hu, h⟩, rfl⟩
  · intro h t ht
    unfold leaderboard_sorted at ht
    rw [List.mem_insertionSort] at ht
    unfold leaderboard_rows at ht
    obtain ⟨v, hv, heq⟩ := List.mem_map.1 ht
    have hv2 := (List.mem_filter.1 hv).2
    have hvu : v = u := congrArg Prod.fst heq
    rw [hvu, h] at hv2
    exact Bool.false_ne_true hv2

/-- C8 witness: in `dbTotals` (predictions worth 5, 0 and 3 and one -2
adjustment, all-time window) the user appears with total 6. -/
theorem claim_C8_witness :
    (exUser, predTotal dbTotals none exUser.id + adjTotal dbTotals none exUser.id)
      ∈ leaderboard_sorted dbTotals none ∧
    predTotal dbTotals none exUser.id + adjTotal dbTotals none exUser.id = 6 :=
  ⟨(claim_C8_totals dbTotals none exUser (by decide)).1 (by decide), by decide⟩

/-- C9: REFUTED in its determinism part. The users query (line 97) has no
`ORDER BY`, so on the identical store `dbTies` the engine may deliver the
qualifying rows in table order or with the two tied users swapped — the
first conjunct certifies the swapped list is a permutation of the
qualifying rows, i.e. an equally legal result of the unordered query —
and the two deliveries produce different output sequences. -/
theorem claim_C9_counterexample :
    List.Perm [exU2, exU1, exU3]
      (dbTies.users.filter fun u => hasActivity dbTies none u.id) ∧
    leaderboard_sorted_of [exU2, exU1, exU3] dbTies none ≠
      leaderboard_sorted dbTies none := by
  constructor
  · exact List.isPerm_iff.1 (by decide)
  · decide

/-- C9 (amended): the leaderboard is ordered descending by total points
for every row order the users query delivers; the sort is stable, so two
entries with equal totals keep the relative order in which the store
delivered them — the output order is determined by that delivered order
(unspecified in the source query), not by the input state alone; as a
multiset the output is independent of the delivered order. The first
conjunct ties the delivered-order pipeline to the endpoint's output under
table-order delivery. -/
theorem claim_C9_sorted_stable (db : DB) (flt : Option Int)
    (users : List User) :
    leaderboard_sorted_of (db.users.filter fun u => hasActivity db flt u.id)
        db flt = leaderboard_sorted db flt ∧
    (leaderboard_sorted_of users db flt).Pairwise
      (fun x y : User × Int => y.2 ≤ x.2) ∧
    (∀ x y : User × Int, x.2 = y.2 →
      List.Sublist [x, y] (leaderboard_rows_of users db flt) →
      List.Sublist [x, y] (leaderboard_sorted_of users db flt)) ∧
    (∀ users' : List User, List.Perm users' users →
      List.Perm (leaderboard_sorted_of users' db flt)
        (leaderboard_sorted_of users db flt)) := by
  refine ⟨rfl, List.sorted_insertionSort lbRel _, ?_, ?_⟩
  · intro x y hxy hsub
    exact List.sublist_insertionSort
      (List.pairwise_pair.mpr (le_of_eq hxy.symm)) hsub
  · intro users' hperm
    exact ((List.perm_insertionSort lbRel _).trans
      (hperm.map _)).trans (List.perm_insertionSort lbRel _).symm

/-- C9 witness: under table-order delivery of `dbTies` (totals 10, 10, 7)
the two tied users appear adjacent in delivered order, and the swapped
delivery yields a permutation of that output. -/
theorem claim_C9_witness :
    List.Sublist [(exU1, (10 : Int)), (exU2, 10)]
      (leaderboard_sorted_of [exU1, exU2, exU3] dbTies none) ∧
    List.Perm (leaderboard_sorted_of [exU2, exU1, exU3] dbTies none)
      (leaderboard_sorted_of [exU1, exU2, exU3] dbTies none) := by
  have h := claim_C9_sorted_stable dbTies none [exU1, exU2, exU3]
  constructor
  · refine h.2.2.1 (exU1, 10) (exU2, 10) rfl ?_
    rw [show leaderboard_rows_of [exU1, exU2, exU3] dbTies none =
      [(exU1, 10), (exU2, 10), (exU3, 7)] from by decide]
    exact List.Sublist.cons₂ _ (List.Sublist.cons₂ _ (List.nil_sublist _))
  · exact h.2.2.2 [exU2, exU1, exU3] (List.Perm.swap exU1 exU2 [exU3])

/-- C10: every period string other than `semanal` and `mensual` — the
default `total` included, and any unrecognized value — yields no date
filter: the endpoint computes the all-time leaderboard instead of
rejecting the request. -/
theorem claim_C10_default_alltime (db : DB) (period : String) (now : Int)
    (h1 : period ≠ "semanal") (h2 : period ≠ "mensual") :
    date_filter period now = none ∧
    get_leaderboard_image_endpoint db period now = leaderboard_sorted db none := by
  have hd : date_filter period now = none := by
    unfold date_filter
    rw [if_neg (by simpa using h1), if_neg (by simpa using h2)]
  exact ⟨hd, by unfold get_leaderboard_image_endpoint; rw [hd]⟩

/-- C10 witness: the unrecognized period `"xyz"` and the default
`"total"` both compute the all-time leaderboard of `dbTies`. -/
theorem claim_C10_witness :
    (date_filter "xyz" 40 = none ∧
      get_leaderboard_image_endpoint dbTies "xyz" 40 =
        leaderboard_sorted dbTies none) ∧
    (date_filter "total" 40 = none ∧
      get_leaderboard_image_endpoint dbTies "total" 40 =
        leaderboard_sorted dbTies none) :=
  ⟨claim_C10_default_alltime dbTies "xyz" 40 (by decide) (by decide),
   claim_C10_default_alltime dbTies "total" 40 (by decide) (by decide)⟩
